import Mathlib

/-!
Verification development for the TrueChain backend.

This file gives a shallow embedding of the core of the repository:
the search provider adapter (app/services/search_service.py), the
Neo4j persistence layer (app/services/graph_service.py), the
WebSocket connection manager (app/websocket/stream_manager.py) and
the streaming query endpoint (app/routes/query_routes.py), together
with theorems about the testable properties of the specification.

Network effects are abstracted: an HTTP call is modelled by passing
the provider response as an explicit argument, and a WebSocket send
is modelled by recording the emitted event in a trace.  Machine
randomness (the 8-character source_id tokens) is omitted from the
event model since no property depends on it.
-/

set_option linter.unusedVariables false

/-- Whitespace characters as recognised by the Python str.strip method
(ASCII subset; the URLs in the claims only use these). -/
def isPySpace (c : Char) : Bool :=
  c == ' ' || c == '\t' || c == '\n' || c == '\r' || c == '\x0b' || c == '\x0c'

/-- Model of the Python expression url.strip(): drop whitespace from both
ends of the string. -/
def pyStrip (s : String) : String :=
  String.mk (((s.toList.dropWhile isPySpace).reverse.dropWhile isPySpace).reverse)

/-- Model of the Python expression search_type.lower(): lowercase the
string character by character (the provider tags of this repository are
ASCII, where the Python method agrees with Char.toLower). -/
def pyLower (s : String) : String :=
  String.mk (s.toList.map Char.toLower)

/-- Model of app.models.query.SearchResult (pydantic model with four
string fields). -/
structure SearchResult where
  title : String
  url : String
  content : String
  source : String
deriving DecidableEq, Repr

namespace SearchService

/-- One item of the Tavily response results array, with the fields the
code reads via item.get. -/
structure TavilyItem where
  title : String
  url : String
  content : String
deriving DecidableEq, Repr

/-- Abstraction of the HTTP response of the Tavily API call: status code,
raw body text (used in the error message) and the decoded JSON fields the
code reads.  The answer field is none when the key is absent. -/
structure TavilyResponse where
  status_code : Nat
  text : String
  answer : Option String
  results : List TavilyItem
deriving DecidableEq, Repr

/-- One organic item of the Serper response. -/
structure SerperOrganic where
  title : String
  link : String
  snippet : String
deriving DecidableEq, Repr

/-- Abstraction of the HTTP response of the Serper API call.  Each entry
of relatedSearches is the query field of the corresponding item. -/
structure SerperResponse where
  status_code : Nat
  text : String
  organic : List SerperOrganic
  relatedSearches : List String
deriving DecidableEq, Repr

/-- SearchService.search_tavily: on a non-200 status raise, otherwise
prepend a synthesized Summary Answer result (when the answer key is
present and the string is truthy, that is non-empty) to the mapped
per-item results. -/
def search_tavily (query : String) (resp : TavilyResponse) :
    Except String (List SearchResult) :=
  if resp.status_code ≠ 200 then
    Except.error ("Tavily API error: " ++ toString resp.status_code ++ " - " ++ resp.text)
  else
    Except.ok (
      (match resp.answer with
       | some a =>
         if a = "" then []
         else [{ title := "Summary Answer", url := "", content := a, source := "tavily" }]
       | none => []) ++
      resp.results.map
        (fun it => { title := it.title, url := it.url, content := it.content, source := "tavily" }))

/-- SearchService.search_serper: on a non-200 status raise, otherwise map
the organic results and append the synthesized related-search
pseudo-results (empty url, title prefixed with the word Related). -/
def search_serper (query : String) (resp : SerperResponse) :
    Except String (List SearchResult) :=
  if resp.status_code ≠ 200 then
    Except.error ("Serper API error: " ++ toString resp.status_code ++ " - " ++ resp.text)
  else
    Except.ok (
      resp.organic.map
        (fun it => { title := it.title, url := it.link, content := it.snippet, source := "serper" }) ++
      resp.relatedSearches.map
        (fun rq => { title := "Related: " ++ rq, url := "", content := rq, source := "serper" }))

/-- SearchService.search: dispatch on search_type.lower() == "serper",
defaulting to the Tavily branch for every other tag.  The two provider
responses stand for what the respective HTTP call would return; only the
selected one is consulted. -/
def search (query : String) (search_type : String) (tr : TavilyResponse)
    (sr : SerperResponse) : Except String (List SearchResult) :=
  if pyLower search_type = "serper" then search_serper query sr
  else search_tavily query tr

/-- SearchService.search_streaming: repeats the dispatch of search inline
(as the Python method does), then replays the fetched list through the
callback one result at a time, in order.  The asyncio.sleep pacing has no
observable effect on the callback sequence and is dropped; the callback is
modelled as a state transformer and the returned value is the final
callback state. -/
def search_streaming {σ : Type} (query : String) (search_type : String)
    (tr : TavilyResponse) (sr : SerperResponse)
    (callback : σ → SearchResult → σ) (init : σ) : Except String σ :=
  match (if pyLower search_type = "serper" then search_serper query sr
         else search_tavily query tr) with
  | Except.error e => Except.error e
  | Except.ok results => Except.ok (results.foldl callback init)

end SearchService

/-- A persisted Query node: keyed by text, carrying the last written
timestamp and optionally the last written session_id. -/
structure QueryNode where
  text : String
  timestamp : Nat
  session_id : Option String
deriving DecidableEq, Repr

/-- A persisted Source node: keyed by url, carrying the last written
title, snippet, source tag and fetch time. -/
structure SourceNode where
  url : String
  title : String
  snippet : String
  source : String
  fetch_time : Nat
deriving DecidableEq, Repr

/-- The observable state of the Neo4j graph touched by the repository:
Query nodes, Source nodes and REFERENCES relationships, the latter
identified by the (query text, source url) pair of their endpoints. -/
structure GraphState where
  queries : List QueryNode
  sources : List SourceNode
  refs : List (String × String)
deriving DecidableEq, Repr

/-- Python truthiness of the optional session_id argument, which selects
between the two Cypher texts in save_query_and_sources. -/
def sidTruthy : Option String → Bool
  | none => false
  | some s => !(s == "")

/-- Semantics of the Cypher MERGE on the Query node: if a node with the
given text exists update it in place (SET timestamp, and SET session_id
only in the branch taken for a truthy session_id), otherwise create one.
A freshly created node gets a session_id only in that same branch. -/
def mergeQuery (qs : List QueryNode) (t : String) (now : Nat)
    (sid : Option String) : List QueryNode :=
  if qs.any (fun q => q.text == t) then
    qs.map (fun q =>
      if q.text == t then
        { q with timestamp := now,
                 session_id := if sidTruthy sid then sid else q.session_id }
      else q)
  else
    qs ++ [{ text := t, timestamp := now,
             session_id := if sidTruthy sid then sid else none }]

/-- Semantics of the Cypher MERGE on the Source node keyed by url, with
SET of title, snippet, source and fetch_time. -/
def mergeSource (ss : List SourceNode) (r : SearchResult) (now : Nat) :
    List SourceNode :=
  if ss.any (fun s => s.url == r.url) then
    ss.map (fun s =>
      if s.url == r.url then
        { url := s.url, title := r.title, snippet := r.content,
          source := r.source, fetch_time := now }
      else s)
  else
    ss ++ [{ url := r.url, title := r.title, snippet := r.content,
             source := r.source, fetch_time := now }]

/-- Semantics of MERGE on the REFERENCES relationship between the matched
Query and Source nodes. -/
def mergeRef (rf : List (String × String)) (t u : String) :
    List (String × String) :=
  if rf.any (fun p => p.1 == t && p.2 == u) then rf else rf ++ [(t, u)]

/-- One iteration of the loop over search_results in
save_query_and_sources: skip the result when url.strip() is falsy,
otherwise merge the Source node and the REFERENCES relationship. -/
def saveSourceStep (g : GraphState) (t : String) (now : Nat)
    (r : SearchResult) : GraphState :=
  if pyStrip r.url == "" then g
  else { g with sources := mergeSource g.sources r now,
                refs := mergeRef g.refs t r.url }

/-- The graph transaction performed by
GraphService.save_query_and_sources once the driver is present: merge the
Query node, then fold the per-result step over the results list. -/
def GraphState.save (g : GraphState) (query_text : String)
    (search_results : List SearchResult) (session_id : Option String)
    (now : Nat) : GraphState :=
  search_results.foldl (fun acc r => saveSourceStep acc query_text now r)
    { g with queries := mergeQuery g.queries query_text now session_id }

/-- The texts of the persisted Query nodes. -/
def queryTexts (g : GraphState) : List String :=
  g.queries.map QueryNode.text

/-- The urls of the persisted Source nodes. -/
def sourceUrls (g : GraphState) : List String :=
  g.sources.map SourceNode.url

namespace GraphService

/-- The mode bits of a GraphService instance: whether the neo4j package
imported (module level NEO4J_AVAILABLE) and whether self.driver is set. -/
structure ServiceState where
  neo4j_available : Bool
  driver : Bool
deriving DecidableEq, Repr

/-- GraphService.connect: with the neo4j package missing, log a warning
and return (mock mode, no driver).  With the package present, build the
driver and test the connection; the reach argument is the outcome of that
test, and a failure is logged and re-raised. -/
def connect (neo4j_available : Bool) (reach : Except String Unit) :
    Except String ServiceState :=
  if !neo4j_available then Except.ok { neo4j_available := false, driver := false }
  else
    match reach with
    | Except.ok _ => Except.ok { neo4j_available := true, driver := true }
    | Except.error e => Except.error e

/-- GraphService.save_query_and_sources at the service level: skip
silently in mock mode, raise when the driver was never initialized,
otherwise run the graph transaction. -/
def save_query_and_sources (st : ServiceState) (g : GraphState)
    (query_text : String) (search_results : List SearchResult)
    (session_id : Option String) (now : Nat) : Except String GraphState :=
  if !st.neo4j_available then Except.ok g
  else if !st.driver then
    Except.error "Neo4j driver not initialized. Call connect() first."
  else Except.ok (g.save query_text search_results session_id now)

/-- GraphService.get_query_history: empty history in mock mode, raise
when the driver was never initialized, otherwise the Query nodes sorted
by timestamp descending, truncated to the limit. -/
def get_query_history (st : ServiceState) (g : GraphState) (limit : Nat) :
    Except String (List (String × Nat)) :=
  if !st.neo4j_available then Except.ok []
  else if !st.driver then
    Except.error "Neo4j driver not initialized. Call connect() first."
  else
    Except.ok (((g.queries.mergeSort
      (fun a b => decide (b.timestamp ≤ a.timestamp))).take limit).map
        (fun q => (q.text, q.timestamp)))

end GraphService

namespace ConnectionManager

/-- Abstraction of a WebSocket channel by the behaviour of send_text on
it: a healthy channel accepts the write, a closed one raises
WebSocketDisconnect. -/
inductive ChannelHealth
  | healthy
  | closed
deriving DecidableEq, Repr

/-- ConnectionManager.connect: dict assignment
active_connections[client_id] = websocket, replacing any prior channel
under that key and otherwise appending a fresh entry. -/
def connect (conns : List (String × ChannelHealth)) (ws : ChannelHealth)
    (client_id : String) : List (String × ChannelHealth) :=
  if conns.any (fun p => p.1 == client_id) then
    conns.map (fun p => if p.1 == client_id then (client_id, ws) else p)
  else conns ++ [(client_id, ws)]

/-- ConnectionManager.disconnect: delete the entry if the key is present,
no-op otherwise. -/
def disconnect (conns : List (String × ChannelHealth)) (client_id : String) :
    List (String × ChannelHealth) :=
  if conns.any (fun p => p.1 == client_id) then
    conns.filter (fun p => !(p.1 == client_id))
  else conns

/-- Outcome of one broadcast call: the client ids written to in order,
the connection dict when the call ends, and whether the call terminated
by raising RuntimeError. -/
structure BroadcastOutcome where
  written : List String
  conns : List (String × ChannelHealth)
  runtime_error : Bool
deriving DecidableEq, Repr

/-- The loop of ConnectionManager.broadcast.  The first argument is the
remaining iterator positions, the second the live dict.  A healthy
channel is written and the loop advances.  When send_text raises
WebSocketDisconnect the except clause calls disconnect, which deletes the
entry from the dict the loop is iterating over; CPython then raises
RuntimeError (dictionary changed size during iteration) at the very next
advance of the iterator, including the final one, so the loop ends there
with the error propagating out of broadcast. -/
def broadcastLoop : List (String × ChannelHealth) →
    List (String × ChannelHealth) → List String → BroadcastOutcome
  | [], conns, written => { written := written, conns := conns, runtime_error := false }
  | (cid, ch) :: rest, conns, written =>
    match ch with
    | ChannelHealth.healthy => broadcastLoop rest conns (written ++ [cid])
    | ChannelHealth.closed =>
      { written := written, conns := disconnect conns cid, runtime_error := true }

/-- ConnectionManager.broadcast: iterate over active_connections.items()
writing the message to each channel. -/
def broadcast (conns : List (String × ChannelHealth)) : BroadcastOutcome :=
  broadcastLoop conns conns []

end ConnectionManager

/-- The outbound StreamEvent shapes of the streaming session, tagged by
the event field of the JSON message.  The random 8-character source_id of
a source event is not modelled. -/
inductive StreamEvent
  | status (message : String)
  | source (title url snippet : String)
  | error (message : String)
  | done (total_results : Nat)
deriving DecidableEq, Repr

/-- The source event the result_callback of the endpoint emits for one
search result. -/
def toSourceEvent (r : SearchResult) : StreamEvent :=
  StreamEvent.source r.title r.url r.content

/-- Whether an event is a source event. -/
def isSourceEvent : StreamEvent → Bool
  | StreamEvent.source _ _ _ => true
  | _ => false

/-- Whether an event is a done event. -/
def isDoneEvent : StreamEvent → Bool
  | StreamEvent.done _ => true
  | _ => false

/-- Number of source events in a trace. -/
def countSourceEvents (es : List StreamEvent) : Nat :=
  (es.filter isSourceEvent).length

/-- Outcome of the search_streaming call made by the endpoint: either it
returns after streaming the full result list through the callback, or it
raises after having streamed some prefix (the fetch itself raising gives
the empty prefix). -/
inductive SearchOutcome
  | success (results : List SearchResult)
  | failure (streamed : List SearchResult) (message : String)
deriving DecidableEq, Repr

/-- Outcome of the save_query_and_sources call made by the endpoint. -/
inductive PersistOutcome
  | saved
  | failed (message : String)
deriving DecidableEq, Repr

/-- Observable outcome of one run of the websocket endpoint body: the
events sent over the channel in order, the save calls made on the graph
service (query text, results, session_id), and the connection registry
when the handler returns. -/
structure SessionResult where
  events : List StreamEvent
  saves : List (String × List SearchResult × Option String)
  registry : List (String × ConnectionManager.ChannelHealth)
deriving DecidableEq, Repr

/-- The body of websocket_stream_endpoint on runs in which every channel
write succeeds.  The endpoint registers the channel, reads the initial
payload (absent JSON keys default to the empty string and to tavily
respectively), rejects a falsy query with a single error event and no
persistence, and otherwise emits the status event, one source event per
streamed result, and then either the search-failure error event (skipping
persistence) or a save call followed by the done event.  A persistence
failure is logged and swallowed, so nothing downstream depends on the
persist argument. -/
def websocket_stream_endpoint
    (reg : List (String × ConnectionManager.ChannelHealth))
    (ws : ConnectionManager.ChannelHealth) (session_id : String)
    (queryField searchTypeField : Option String)
    (outcome : SearchOutcome) (persist : PersistOutcome) : SessionResult :=
  let reg1 := ConnectionManager.connect reg ws session_id
  let query_text := queryField.getD ""
  let search_type := searchTypeField.getD "tavily"
  if query_text = "" then
    { events := [StreamEvent.error "Query text is required"],
      saves := [], registry := reg1 }
  else
    match outcome with
    | SearchOutcome.failure streamed msg =>
      { events := StreamEvent.status "Searching sources..." ::
          (streamed.map toSourceEvent ++
           [StreamEvent.error ("Search failed: " ++ msg)]),
        saves := [], registry := reg1 }
    | SearchOutcome.success results =>
      { events := StreamEvent.status "Searching sources..." ::
          (results.map toSourceEvent ++ [StreamEvent.done results.length]),
        saves := [(query_text, results, some session_id)],
        registry := reg1 }

/-- How a session run ends at the transport layer: the body returns, or a
WebSocketDisconnect escapes it, or some other exception escapes it. -/
inductive TransportFate
  | completed
  | disconnected
  | failed (message : String)
deriving DecidableEq, Repr

/-- The connection registry after the endpoint finishes, for each
transport fate: the two except clauses call disconnect(session_id), the
normal return path does not. -/
def endpoint_registry_after
    (reg : List (String × ConnectionManager.ChannelHealth))
    (ws : ConnectionManager.ChannelHealth) (session_id : String) :
    TransportFate → List (String × ConnectionManager.ChannelHealth)
  | TransportFate.completed => ConnectionManager.connect reg ws session_id
  | TransportFate.disconnected =>
    ConnectionManager.disconnect (ConnectionManager.connect reg ws session_id) session_id
  | TransportFate.failed _ =>
    ConnectionManager.disconnect (ConnectionManager.connect reg ws session_id) session_id

/-- Model of the Python expression data.get with the string default used
for the search_type field of the initial payload. -/
def defaultSearchType (f : Option String) : String :=
  f.getD "tavily"

section HelperLemmas

lemma foldl_snoc_eq (l acc : List SearchResult) :
    l.foldl (fun a r => a ++ [r]) acc = acc ++ l := by
  induction l generalizing acc with
  | nil => simp
  | cons x xs ih => simp [List.foldl_cons, ih]

lemma getLast_cons_concat (a b : StreamEvent) (l : List StreamEvent) :
    (a :: (l ++ [b])).getLast? = some b := by
  rw [← List.cons_append]
  exact List.getLast?_concat _

lemma countSourceEvents_trace (msg : String) (rs : List SearchResult)
    (e : StreamEvent) (he : isSourceEvent e = false) :
    countSourceEvents (StreamEvent.status msg :: (rs.map toSourceEvent ++ [e])) =
      rs.length := by
  unfold countSourceEvents
  rw [List.filter_cons_of_neg (by simp [isSourceEvent]),
      List.filter_append]
  have h1 : (rs.map toSourceEvent).filter isSourceEvent = rs.map toSourceEvent := by
    rw [List.filter_eq_self]
    intro e hmem
    rw [List.mem_map] at hmem
    obtain ⟨r, _, hr⟩ := hmem
    rw [← hr]
    rfl
  rw [h1, List.filter_cons_of_neg (by simp [he]), List.filter_nil,
      List.append_nil, List.length_map]

lemma no_done_in_trace (msg m2 : String) (rs : List SearchResult) :
    (StreamEvent.status msg ::
      (rs.map toSourceEvent ++ [StreamEvent.error m2])).all
        (fun e => !(isDoneEvent e)) = true := by
  rw [List.all_eq_true]
  intro e hmem
  rw [List.mem_cons] at hmem
  rcases hmem with h | hmem
  · rw [h]
    rfl
  · rw [List.mem_append] at hmem
    rcases hmem with hmem | h
    · rw [List.mem_map] at hmem
      obtain ⟨r, _, hr⟩ := hmem
      rw [← hr]
      rfl
    · rw [List.mem_singleton] at h
      rw [h]
      rfl

lemma mem_fst_connect (conns : List (String × ConnectionManager.ChannelHealth))
    (ws : ConnectionManager.ChannelHealth) (cid : String) :
    cid ∈ (ConnectionManager.connect conns ws cid).map Prod.fst := by
  unfold ConnectionManager.connect
  split
  · rename_i h
    rw [List.any_eq_true] at h
    obtain ⟨p, hp, he⟩ := h
    have hmem : (cid, ws) ∈ conns.map
        (fun p => if p.1 == cid then (cid, ws) else p) :=
      List.mem_map.mpr ⟨p, hp, by rw [if_pos he]⟩
    exact List.mem_map.mpr ⟨(cid, ws), hmem, rfl⟩
  · rw [List.map_append]
    simp

lemma not_mem_fst_disconnect
    (conns : List (String × ConnectionManager.ChannelHealth)) (cid : String) :
    cid ∉ (ConnectionManager.disconnect conns cid).map Prod.fst := by
  unfold ConnectionManager.disconnect
  split
  · intro hmem
    rw [List.mem_map] at hmem
    obtain ⟨p, hp, hfst⟩ := hmem
    rw [List.mem_filter] at hp
    have h2 := hp.2
    simp only [Bool.not_eq_true', beq_eq_false_iff_ne, ne_eq] at h2
    exact h2 hfst
  · rename_i h
    intro hmem
    rw [List.mem_map] at hmem
    obtain ⟨p, hp, hfst⟩ := hmem
    apply h
    rw [List.any_eq_true]
    exact ⟨p, hp, beq_iff_eq.mpr hfst⟩

end HelperLemmas

/-- C1: for every non-empty query and either provider tag, when the
full-fetch search returns a result list for the given provider responses,
search_streaming on the same responses invokes its callback exactly once
per result in the same order, so the list accumulated by an appending
callback equals the full-fetch result list. -/
theorem search_streaming_agrees_with_search (q st : String)
    (tr : SearchService.TavilyResponse) (sr : SearchService.SerperResponse)
    (rs : List SearchResult) (hq : q ≠ "")
    (h : SearchService.search q st tr sr = Except.ok rs) :
    SearchService.search_streaming q st tr sr
      (fun acc r => acc ++ [r]) ([] : List SearchResult) = Except.ok rs := by
  unfold SearchService.search at h
  unfold SearchService.search_streaming
  rw [h]
  simp [foldl_snoc_eq]

theorem search_streaming_agrees_with_search_witness :
    SearchService.search_streaming "rust" "tavily"
      { status_code := 200, text := "", answer := some "ans",
        results := [{ title := "T", url := "u", content := "c" }] }
      { status_code := 200, text := "", organic := [], relatedSearches := [] }
      (fun acc r => acc ++ [r]) ([] : List SearchResult) =
      Except.ok
        [{ title := "Summary Answer", url := "", content := "ans", source := "tavily" },
         { title := "T", url := "u", content := "c", source := "tavily" }] :=
  search_streaming_agrees_with_search "rust" "tavily" _ _ _ (by decide) rfl

/-- C6: provider selection is by the case-insensitive tag
search_type.lower(): selection depends only on the lowercased tag, every
tag whose lowercasing is not serper behaves exactly like the tag tavily,
an absent search_type field defaults to tavily, and every case variant of
serper selects the Serper provider. -/
theorem search_type_selection_defaults_to_tavily (q : String)
    (tr : SearchService.TavilyResponse) (sr : SearchService.SerperResponse) :
    (∀ st : String, pyLower st ≠ "serper" →
      SearchService.search q st tr sr = SearchService.search q "tavily" tr sr)
    ∧ (∀ st st2 : String, pyLower st = pyLower st2 →
      SearchService.search q st tr sr = SearchService.search q st2 tr sr)
    ∧ defaultSearchType none = "tavily"
    ∧ (∀ st : String, pyLower st = "serper" →
      SearchService.search q st tr sr = SearchService.search_serper q sr) := by
  refine ⟨?_, ?_, rfl, ?_⟩
  · intro st hst
    unfold SearchService.search
    rw [if_neg hst, if_neg (by decide)]
  · intro st st2 h
    unfold SearchService.search
    rw [h]
  · intro st hst
    unfold SearchService.search
    rw [if_pos hst]

theorem search_type_selection_defaults_to_tavily_witness :
    (SearchService.search "q" "Bogus"
        { status_code := 200, text := "", answer := none, results := [] }
        { status_code := 200, text := "",
          organic := [{ title := "t", link := "l", snippet := "s" }],
          relatedSearches := [] } =
      SearchService.search "q" "tavily"
        { status_code := 200, text := "", answer := none, results := [] }
        { status_code := 200, text := "",
          organic := [{ title := "t", link := "l", snippet := "s" }],
          relatedSearches := [] })
    ∧ (SearchService.search "q" "SERPER"
        { status_code := 200, text := "", answer := none, results := [] }
        { status_code := 200, text := "",
          organic := [{ title := "t", link := "l", snippet := "s" }],
          relatedSearches := [] } =
      SearchService.search_serper "q"
        { status_code := 200, text := "",
          organic := [{ title := "t", link := "l", snippet := "s" }],
          relatedSearches := [] }) :=
  ⟨(search_type_selection_defaults_to_tavily "q" _ _).1 "Bogus" (by decide),
   (search_type_selection_defaults_to_tavily "q" _ _).2.2.2 "SERPER" (by decide)⟩

/-- C2: a streaming session whose initial payload carries an empty query
string emits exactly one error event with the message Query text is
required, no source event and no done event, and makes no save call on
the persistence store; the same holds when the query key is absent. -/
theorem empty_query_emits_single_error_and_skips_save
    (reg : List (String × ConnectionManager.ChannelHealth))
    (ws : ConnectionManager.ChannelHealth) (sid : String)
    (stf : Option String) (out : SearchOutcome) (per : PersistOutcome) :
    websocket_stream_endpoint reg ws sid (some "") stf out per =
      { events := [StreamEvent.error "Query text is required"], saves := [],
        registry := ConnectionManager.connect reg ws sid }
    ∧ websocket_stream_endpoint reg ws sid none stf out per =
      { events := [StreamEvent.error "Query text is required"], saves := [],
        registry := ConnectionManager.connect reg ws sid } := by
  constructor <;> rfl

/-- C3: in a session whose search succeeds, when the persistence call
fails the session still ends with a done event whose total_results count
equals the number of results streamed as source events. -/
theorem persist_failure_still_emits_done
    (reg : List (String × ConnectionManager.ChannelHealth))
    (ws : ConnectionManager.ChannelHealth) (sid q : String)
    (stf : Option String) (results : List SearchResult) (m : String)
    (hq : q ≠ "") :
    (websocket_stream_endpoint reg ws sid (some q) stf
        (SearchOutcome.success results) (PersistOutcome.failed m)).events.getLast?
      = some (StreamEvent.done results.length)
    ∧ countSourceEvents (websocket_stream_endpoint reg ws sid (some q) stf
        (SearchOutcome.success results) (PersistOutcome.failed m)).events
      = results.length := by
  unfold websocket_stream_endpoint
  simp only [Option.getD_some]
  rw [if_neg hq]
  exact ⟨getLast_cons_concat _ _ _, countSourceEvents_trace _ _ _ rfl⟩

theorem persist_failure_still_emits_done_witness :
    (websocket_stream_endpoint [] ConnectionManager.ChannelHealth.healthy "s"
        (some "x") none
        (SearchOutcome.success [{ title := "t", url := "u", content := "c", source := "tavily" }])
        (PersistOutcome.failed "neo4j down")).events.getLast?
      = some (StreamEvent.done 1)
    ∧ countSourceEvents (websocket_stream_endpoint []
        ConnectionManager.ChannelHealth.healthy "s" (some "x") none
        (SearchOutcome.success [{ title := "t", url := "u", content := "c", source := "tavily" }])
        (PersistOutcome.failed "neo4j down")).events
      = 1 :=
  persist_failure_still_emits_done [] ConnectionManager.ChannelHealth.healthy
    "s" "x" none [{ title := "t", url := "u", content := "c", source := "tavily" }]
    "neo4j down" (by decide)

/-- C7: in a session whose search adapter raises, the session ends with
an error event whose message is Search failed followed by the exception
message, makes no save call, and emits no done event. -/
theorem search_failure_emits_error_and_skips_save
    (reg : List (String × ConnectionManager.ChannelHealth))
    (ws : ConnectionManager.ChannelHealth) (sid q : String)
    (stf : Option String) (streamed : List SearchResult) (m : String)
    (per : PersistOutcome) (hq : q ≠ "") :
    (websocket_stream_endpoint reg ws sid (some q) stf
        (SearchOutcome.failure streamed m) per).events.getLast?
      = some (StreamEvent.error ("Search failed: " ++ m))
    ∧ (websocket_stream_endpoint reg ws sid (some q) stf
        (SearchOutcome.failure streamed m) per).saves = []
    ∧ (websocket_stream_endpoint reg ws sid (some q) stf
        (SearchOutcome.failure streamed m) per).events.all
        (fun e => !(isDoneEvent e)) = true := by
  unfold websocket_stream_endpoint
  simp only [Option.getD_some]
  rw [if_neg hq]
  exact ⟨getLast_cons_concat _ _ _, rfl, no_done_in_trace _ _ _⟩

theorem search_failure_emits_error_and_skips_save_witness :
    (websocket_stream_endpoint [] ConnectionManager.ChannelHealth.healthy "s"
        (some "x") none (SearchOutcome.failure [] "timeout")
        PersistOutcome.saved).events.getLast?
      = some (StreamEvent.error ("Search failed: " ++ "timeout"))
    ∧ (websocket_stream_endpoint [] ConnectionManager.ChannelHealth.healthy "s"
        (some "x") none (SearchOutcome.failure [] "timeout")
        PersistOutcome.saved).saves = []
    ∧ (websocket_stream_endpoint [] ConnectionManager.ChannelHealth.healthy "s"
        (some "x") none (SearchOutcome.failure [] "timeout")
        PersistOutcome.saved).events.all (fun e => !(isDoneEvent e)) = true :=
  search_failure_emits_error_and_skips_save [] ConnectionManager.ChannelHealth.healthy
    "s" "x" none [] "timeout" PersistOutcome.saved (by decide)

/-- C10: a session that completes normally (its trace ends with the done
event and the handler returns) leaves its session id registered in the
connection registry; the id is removed only on the transport-disconnect
and unexpected-error paths. -/
theorem registry_retains_session_on_normal_completion
    (reg : List (String × ConnectionManager.ChannelHealth))
    (ws : ConnectionManager.ChannelHealth) (sid q : String)
    (stf : Option String) (results : List SearchResult)
    (per : PersistOutcome) (hq : q ≠ "") :
    ((websocket_stream_endpoint reg ws sid (some q) stf
        (SearchOutcome.success results) per).events.getLast?
      = some (StreamEvent.done results.length)
     ∧ sid ∈ ((websocket_stream_endpoint reg ws sid (some q) stf
        (SearchOutcome.success results) per).registry).map Prod.fst)
    ∧ sid ∉ (endpoint_registry_after reg ws sid TransportFate.disconnected).map Prod.fst
    ∧ ∀ m : String,
        sid ∉ (endpoint_registry_after reg ws sid (TransportFate.failed m)).map Prod.fst := by
  refine ⟨⟨?_, ?_⟩, ?_, fun m => ?_⟩
  · unfold websocket_stream_endpoint
    simp only [Option.getD_some]
    rw [if_neg hq]
    exact getLast_cons_concat _ _ _
  · unfold websocket_stream_endpoint
    simp only [Option.getD_some]
    rw [if_neg hq]
    exact mem_fst_connect _ _ _
  · exact not_mem_fst_disconnect _ _
  · exact not_mem_fst_disconnect _ _

theorem registry_retains_session_on_normal_completion_witness :
    ((websocket_stream_endpoint [] ConnectionManager.ChannelHealth.healthy "s"
        (some "x") none (SearchOutcome.success []) PersistOutcome.saved).events.getLast?
      = some (StreamEvent.done 0)
     ∧ "s" ∈ ((websocket_stream_endpoint [] ConnectionManager.ChannelHealth.healthy "s"
        (some "x") none (SearchOutcome.success []) PersistOutcome.saved).registry).map Prod.fst)
    ∧ "s" ∉ (endpoint_registry_after [] ConnectionManager.ChannelHealth.healthy "s"
        TransportFate.disconnected).map Prod.fst
    ∧ "s" ∉ (endpoint_registry_after [] ConnectionManager.ChannelHealth.healthy "s"
        (TransportFate.failed "oops")).map Prod.fst := by
  have h := registry_retains_session_on_normal_completion []
    ConnectionManager.ChannelHealth.healthy "s" "x" none [] PersistOutcome.saved
    (by decide)
  exact ⟨h.1, h.2.1, h.2.2 "oops"⟩

section GraphLemmas

lemma queryTexts_def (g : GraphState) :
    queryTexts g = g.queries.map QueryNode.text := rfl

lemma sourceUrls_def (g : GraphState) :
    sourceUrls g = g.sources.map SourceNode.url := rfl

lemma any_text_iff (qs : List QueryNode) (t : String) :
    qs.any (fun q => q.text == t) = true ↔ t ∈ qs.map QueryNode.text := by
  rw [List.any_eq_true]
  constructor
  · rintro ⟨q, hq, he⟩
    exact List.mem_map.mpr ⟨q, hq, beq_iff_eq.mp he⟩
  · intro h
    obtain ⟨q, hq, he⟩ := List.mem_map.mp h
    exact ⟨q, hq, beq_iff_eq.mpr he⟩

lemma any_url_iff (ss : List SourceNode) (u : String) :
    ss.any (fun s => s.url == u) = true ↔ u ∈ ss.map SourceNode.url := by
  rw [List.any_eq_true]
  constructor
  · rintro ⟨s, hs, he⟩
    exact List.mem_map.mpr ⟨s, hs, beq_iff_eq.mp he⟩
  · intro h
    obtain ⟨s, hs, he⟩ := List.mem_map.mp h
    exact ⟨s, hs, beq_iff_eq.mpr he⟩

lemma map_text_mergeQuery (qs : List QueryNode) (t : String) (now : Nat)
    (sid : Option String) :
    (mergeQuery qs t now sid).map QueryNode.text =
      if qs.any (fun q => q.text == t) then qs.map QueryNode.text
      else qs.map QueryNode.text ++ [t] := by
  unfold mergeQuery
  by_cases h : qs.any (fun q => q.text == t) = true
  · rw [if_pos h, if_pos h, List.map_map]
    apply List.map_congr_left
    intro q hq
    simp only [Function.comp_apply]
    by_cases hqt : (q.text == t) = true
    · rw [if_pos hqt]
    · rw [if_neg hqt]
  · rw [if_neg h, if_neg h, List.map_append]
    rfl

lemma map_url_mergeSource (ss : List SourceNode) (r : SearchResult) (now : Nat) :
    (mergeSource ss r now).map SourceNode.url =
      if ss.any (fun s => s.url == r.url) then ss.map SourceNode.url
      else ss.map SourceNode.url ++ [r.url] := by
  unfold mergeSource
  by_cases h : ss.any (fun s => s.url == r.url) = true
  · rw [if_pos h, if_pos h, List.map_map]
    apply List.map_congr_left
    intro s hs
    simp only [Function.comp_apply]
    by_cases hsu : (s.url == r.url) = true
    · rw [if_pos hsu]
    · rw [if_neg hsu]
  · rw [if_neg h, if_neg h, List.map_append]
    rfl

lemma nodup_mergeQuery (qs : List QueryNode) (t : String) (now : Nat)
    (sid : Option String) (h : (qs.map QueryNode.text).Nodup) :
    ((mergeQuery qs t now sid).map QueryNode.text).Nodup := by
  rw [map_text_mergeQuery]
  by_cases hany : qs.any (fun q => q.text == t) = true
  · rw [if_pos hany]
    exact h
  · rw [if_neg hany]
    have ht : t ∉ qs.map QueryNode.text := fun hm => hany ((any_text_iff qs t).mpr hm)
    refine List.nodup_append.mpr ⟨h, List.nodup_singleton t, ?_⟩
    intro x hx hxt
    rw [List.mem_singleton] at hxt
    subst hxt
    exact ht hx

lemma mem_text_mergeQuery (qs : List QueryNode) (t : String) (now : Nat)
    (sid : Option String) :
    t ∈ (mergeQuery qs t now sid).map QueryNode.text := by
  rw [map_text_mergeQuery]
  by_cases hany : qs.any (fun q => q.text == t) = true
  · rw [if_pos hany]
    exact (any_text_iff qs t).mp hany
  · rw [if_neg hany]
    exact List.mem_append.mpr (Or.inr (List.mem_singleton.mpr rfl))

lemma saveSourceStep_queries (g : GraphState) (t : String) (now : Nat)
    (r : SearchResult) : (saveSourceStep g t now r).queries = g.queries := by
  unfold saveSourceStep
  split <;> rfl

lemma save_queries (g : GraphState) (t : String) (rs : List SearchResult)
    (sid : Option String) (now : Nat) :
    (GraphState.save g t rs sid now).queries = mergeQuery g.queries t now sid := by
  unfold GraphState.save
  have hfold : ∀ (l : List SearchResult) (g2 : GraphState),
      (l.foldl (fun acc r => saveSourceStep acc t now r) g2).queries = g2.queries := by
    intro l
    induction l with
    | nil => intro g2; rfl
    | cons x xs ih =>
      intro g2
      rw [List.foldl_cons, ih, saveSourceStep_queries]
  rw [hfold]

lemma sourceUrls_step (g : GraphState) (t : String) (now : Nat)
    (r : SearchResult) :
    sourceUrls (saveSourceStep g t now r) =
      if pyStrip r.url == "" then sourceUrls g
      else if g.sources.any (fun s => s.url == r.url) then sourceUrls g
      else sourceUrls g ++ [r.url] := by
  unfold saveSourceStep
  by_cases h : (pyStrip r.url == "") = true
  · rw [if_pos h, if_pos h]
  · rw [if_neg h, if_neg h]
    exact map_url_mergeSource _ _ _

lemma step_nodup (g : GraphState) (t : String) (now : Nat) (r : SearchResult)
    (h : (sourceUrls g).Nodup) :
    (sourceUrls (saveSourceStep g t now r)).Nodup := by
  rw [sourceUrls_step]
  by_cases h1 : (pyStrip r.url == "") = true
  · rw [if_pos h1]
    exact h
  · rw [if_neg h1]
    by_cases h2 : g.sources.any (fun s => s.url == r.url) = true
    · rw [if_pos h2]
      exact h
    · rw [if_neg h2]
      have hu : r.url ∉ sourceUrls g := fun hm => h2 ((any_url_iff _ _).mpr hm)
      refine List.nodup_append.mpr ⟨h, List.nodup_singleton _, ?_⟩
      intro x hx hxt
      rw [List.mem_singleton] at hxt
      subst hxt
      exact hu hx

lemma step_mem_mono (g : GraphState) (t : String) (now : Nat)
    (r : SearchResult) (u : String) (h : u ∈ sourceUrls g) :
    u ∈ sourceUrls (saveSourceStep g t now r) := by
  rw [sourceUrls_step]
  by_cases h1 : (pyStrip r.url == "") = true
  · rw [if_pos h1]
    exact h
  · rw [if_neg h1]
    by_cases h2 : g.sources.any (fun s => s.url == r.url) = true
    · rw [if_pos h2]
      exact h
    · rw [if_neg h2]
      exact List.mem_append.mpr (Or.inl h)

lemma step_mem_self (g : GraphState) (t : String) (now : Nat)
    (r : SearchResult) (h : ¬(pyStrip r.url = "")) :
    r.url ∈ sourceUrls (saveSourceStep g t now r) := by
  rw [sourceUrls_step]
  rw [if_neg (fun hb => h (beq_iff_eq.mp hb))]
  by_cases h2 : g.sources.any (fun s => s.url == r.url) = true
  · rw [if_pos h2]
    exact (any_url_iff _ _).mp h2
  · rw [if_neg h2]
    exact List.mem_append.mpr (Or.inr (List.mem_singleton.mpr rfl))

lemma step_mem_inv (g : GraphState) (t : String) (now : Nat)
    (r : SearchResult) (u : String)
    (h : u ∈ sourceUrls (saveSourceStep g t now r)) :
    u ∈ sourceUrls g ∨ (u = r.url ∧ ¬(pyStrip r.url = "")) := by
  rw [sourceUrls_step] at h
  by_cases h1 : (pyStrip r.url == "") = true
  · rw [if_pos h1] at h
    exact Or.inl h
  · rw [if_neg h1] at h
    by_cases h2 : g.sources.any (fun s => s.url == r.url) = true
    · rw [if_pos h2] at h
      exact Or.inl h
    · rw [if_neg h2] at h
      rcases List.mem_append.mp h with h3 | h3
      · exact Or.inl h3
      · exact Or.inr ⟨List.mem_singleton.mp h3, fun he => h1 (beq_iff_eq.mpr he)⟩

lemma fold_nodup (t : String) (now : Nat) :
    ∀ (rs : List SearchResult) (g : GraphState), (sourceUrls g).Nodup →
      (sourceUrls (rs.foldl (fun acc r => saveSourceStep acc t now r) g)).Nodup := by
  intro rs
  induction rs with
  | nil => intro g h; exact h
  | cons x xs ih =>
    intro g h
    rw [List.foldl_cons]
    exact ih _ (step_nodup _ _ _ _ h)

lemma fold_mem_mono (t : String) (now : Nat) (u : String) :
    ∀ (rs : List SearchResult) (g : GraphState), u ∈ sourceUrls g →
      u ∈ sourceUrls (rs.foldl (fun acc r => saveSourceStep acc t now r) g) := by
  intro rs
  induction rs with
  | nil => intro g h; exact h
  | cons x xs ih =>
    intro g h
    rw [List.foldl_cons]
    exact ih _ (step_mem_mono _ _ _ _ _ h)

lemma fold_mem_of_result (t : String) (now : Nat) :
    ∀ (rs : List SearchResult) (g : GraphState) (r : SearchResult),
      r ∈ rs → ¬(pyStrip r.url = "") →
      r.url ∈ sourceUrls (rs.foldl (fun acc x => saveSourceStep acc t now x) g) := by
  intro rs
  induction rs with
  | nil => intro g r hr; cases hr
  | cons x xs ih =>
    intro g r hr hu
    rw [List.foldl_cons]
    rcases List.mem_cons.mp hr with h | h
    · subst h
      exact fold_mem_mono t now r.url xs _ (step_mem_self _ _ _ _ hu)
    · exact ih _ _ h hu

lemma fold_mem_inv (t : String) (now : Nat) :
    ∀ (rs : List SearchResult) (g : GraphState) (u : String),
      u ∈ sourceUrls (rs.foldl (fun acc x => saveSourceStep acc t now x) g) →
      u ∈ sourceUrls g ∨ ∃ r ∈ rs, u = r.url ∧ ¬(pyStrip r.url = "") := by
  intro rs
  induction rs with
  | nil => intro g u h; exact Or.inl h
  | cons x xs ih =>
    intro g u h
    rw [List.foldl_cons] at h
    rcases ih _ _ h with h1 | h1
    · rcases step_mem_inv _ _ _ _ _ h1 with h2 | h2
      · exact Or.inl h2
      · exact Or.inr ⟨x, List.mem_cons_self _ _, h2⟩
    · obtain ⟨r, hr, h2⟩ := h1
      exact Or.inr ⟨r, List.mem_cons_of_mem _ hr, h2⟩

lemma pyStrip_of_all_space (s : String) (h : s.toList.all isPySpace = true) :
    pyStrip s = "" := by
  unfold pyStrip
  have h1 : s.toList.dropWhile isPySpace = [] :=
    List.dropWhile_eq_nil_iff.mpr (fun x hx => List.all_eq_true.mp h x hx)
  rw [h1]
  decide

end GraphLemmas

/-- C5: starting from a graph whose query texts and source urls are
duplicate-free, two save calls with the same query text leave exactly one
Query node with that text; any two results with the same non-blank url in
a save call end up in exactly one Source node with that url; and a result
whose url is empty never introduces a Source node with an empty url. -/
theorem save_merges_queries_and_sources (g : GraphState) (t : String)
    (rs1 rs2 : List SearchResult) (sid1 sid2 : Option String) (n1 n2 : Nat)
    (hq : (queryTexts g).Nodup) (hs : (sourceUrls g).Nodup) :
    (queryTexts (GraphState.save (GraphState.save g t rs1 sid1 n1) t rs2 sid2 n2)).count t = 1
    ∧ (∀ r ∈ rs1, ¬(pyStrip r.url = "") →
        (sourceUrls (GraphState.save g t rs1 sid1 n1)).count r.url = 1)
    ∧ ("" ∉ sourceUrls g → "" ∉ sourceUrls (GraphState.save g t rs1 sid1 n1)) := by
  rw [queryTexts_def] at hq
  refine ⟨?_, ?_, ?_⟩
  · have htexts : queryTexts (GraphState.save (GraphState.save g t rs1 sid1 n1) t rs2 sid2 n2) =
        (mergeQuery (mergeQuery g.queries t n1 sid1) t n2 sid2).map QueryNode.text := by
      rw [queryTexts_def, save_queries, save_queries]
    rw [htexts]
    exact List.count_eq_one_of_mem
      (nodup_mergeQuery _ _ _ _ (nodup_mergeQuery _ _ _ _ hq))
      (mem_text_mergeQuery _ _ _ _)
  · intro r hr hu
    have hnodup : (sourceUrls (GraphState.save g t rs1 sid1 n1)).Nodup := by
      unfold GraphState.save
      exact fold_nodup t n1 rs1 _ hs
    have hmem : r.url ∈ sourceUrls (GraphState.save g t rs1 sid1 n1) := by
      unfold GraphState.save
      exact fold_mem_of_result t n1 rs1 _ r hr hu
    exact List.count_eq_one_of_mem hnodup hmem
  · intro h0 hmem
    have hmem2 : ("" : String) ∈ sourceUrls (rs1.foldl
        (fun acc x => saveSourceStep acc t n1 x)
        { g with queries := mergeQuery g.queries t n1 sid1 }) := hmem
    rcases fold_mem_inv t n1 rs1 _ "" hmem2 with h | h
    · exact h0 h
    · obtain ⟨r, hr, he, hne⟩ := h
      apply hne
      rw [← he]
      decide

theorem save_merges_queries_and_sources_witness :
    (queryTexts (GraphState.save (GraphState.save
        { queries := [], sources := [], refs := [] } "q"
        [{ title := "t1", url := "u1", content := "c1", source := "tavily" },
         { title := "t2", url := "u1", content := "c2", source := "serper" }]
        (some "s") 0) "q" [] none 1)).count "q" = 1
    ∧ (sourceUrls (GraphState.save
        { queries := [], sources := [], refs := [] } "q"
        [{ title := "t1", url := "u1", content := "c1", source := "tavily" },
         { title := "t2", url := "u1", content := "c2", source := "serper" }]
        (some "s") 0)).count "u1" = 1
    ∧ ("" : String) ∉ sourceUrls (GraphState.save
        { queries := [], sources := [], refs := [] } "q"
        [{ title := "t1", url := "u1", content := "c1", source := "tavily" },
         { title := "t2", url := "u1", content := "c2", source := "serper" }]
        (some "s") 0) := by
  have h := save_merges_queries_and_sources
    { queries := [], sources := [], refs := [] } "q"
    [{ title := "t1", url := "u1", content := "c1", source := "tavily" },
     { title := "t2", url := "u1", content := "c2", source := "serper" }]
    [] (some "s") none 0 1 (by decide) (by decide)
  exact ⟨h.1,
    h.2.1 { title := "t1", url := "u1", content := "c1", source := "tavily" }
      (by decide) (by decide),
    h.2.2 (by decide)⟩

/-- C9: the persistence transaction skips every result whose url consists
solely of whitespace: removing such a result from the results list leaves
the saved graph unchanged, so it produces no Source node and no
REFERENCES relationship. -/
theorem save_skips_whitespace_url_results (g : GraphState) (t : String)
    (rs1 rs2 : List SearchResult) (sid : Option String) (now : Nat)
    (r : SearchResult) (h : r.url.toList.all isPySpace = true) :
    GraphState.save g t (rs1 ++ r :: rs2) sid now =
      GraphState.save g t (rs1 ++ rs2) sid now := by
  have hstrip : pyStrip r.url = "" := pyStrip_of_all_space _ h
  unfold GraphState.save
  rw [List.foldl_append, List.foldl_append, List.foldl_cons]
  have hskip : ∀ g2 : GraphState, saveSourceStep g2 t now r = g2 := by
    intro g2
    unfold saveSourceStep
    rw [if_pos (beq_iff_eq.mpr hstrip)]
  rw [hskip]

theorem save_skips_whitespace_url_results_witness :
    GraphState.save { queries := [], sources := [], refs := [] } "q"
      ([] ++ { title := "t", url := " \t", content := "c", source := "tavily" } :: [])
      none 0 =
    GraphState.save { queries := [], sources := [], refs := [] } "q"
      ([] ++ []) none 0 :=
  save_skips_whitespace_url_results
    { queries := [], sources := [], refs := [] } "q" [] [] none 0
    { title := "t", url := " \t", content := "c", source := "tavily" } (by decide)

/-- C4 counterexample: with the neo4j package importable but the store
unreachable, GraphService.connect re-raises the connection error instead
of degrading to a no-op mode, so application startup fails. -/
theorem connect_propagates_unreachable_error :
    GraphService.connect true (Except.error "Connection refused") =
      Except.error "Connection refused" := rfl

/-- C4 amended: the degraded no-op/empty-result mode exists, but it is
entered when the neo4j driver package fails to import, not when the store
is unreachable: in that mode connect succeeds without touching the store,
save silently does nothing and the history lookup returns the empty
list. -/
theorem mock_mode_degrades_to_noop (r : Except String Unit) (g : GraphState)
    (t : String) (rs : List SearchResult) (sid : Option String)
    (now lim : Nat) :
    GraphService.connect false r =
      Except.ok { neo4j_available := false, driver := false }
    ∧ GraphService.save_query_and_sources
        { neo4j_available := false, driver := false } g t rs sid now = Except.ok g
    ∧ GraphService.get_query_history
        { neo4j_available := false, driver := false } g lim = Except.ok [] :=
  ⟨rfl, rfl, rfl⟩

/-- C8: evaluation of broadcast on a registry whose first channel raises
WebSocketDisconnect at the write: the entry is removed, but the deletion
mutates the dict the loop iterates over, so the next loop step raises
RuntimeError, broadcast does not complete, and the second channel is
never written.  This contradicts the stated contract (write to every
registered channel and complete without raising). -/
theorem broadcast_runtime_error_on_disconnect :
    (ConnectionManager.broadcast
      [("a", ConnectionManager.ChannelHealth.closed),
       ("b", ConnectionManager.ChannelHealth.healthy)]).runtime_error = true
    ∧ (ConnectionManager.broadcast
      [("a", ConnectionManager.ChannelHealth.closed),
       ("b", ConnectionManager.ChannelHealth.healthy)]).written = []
    ∧ (ConnectionManager.broadcast
      [("a", ConnectionManager.ChannelHealth.closed),
       ("b", ConnectionManager.ChannelHealth.healthy)]).conns =
      [("b", ConnectionManager.ChannelHealth.healthy)] := by
  refine ⟨rfl, rfl, by decide⟩
